import Mathlib

/-!
# A verification model of iOSynthesis.c (QuantumForensix iOS extraction module)

This file gives a shallow embedding of `iOSynthesis.c`, the single C source
file of the iOS extraction pipeline, and proves properties of that model.

Modelling conventions:

* The four global handles of the C file (`device`, `lockdown`, `afc`, `udid`)
  are modelled with two booleans each: whether the global pointer variable is
  non-NULL (`…Ptr`) and whether the object it points to is still allocated
  (`…Live`).  The C code never resets a global to NULL after freeing it, so a
  freed handle leaves a dangling non-NULL pointer; freeing through such a
  pointer sets the `doubleFree` flag.
* Heap objects held only in local variables (service descriptors, the
  installation-proxy client, plists) are modelled by a single liveness flag:
  once the enclosing function returns, a still-live flag is a leak.
* The local filesystem is a map `String → Option (List Nat)` from file names
  to byte contents.
* Outcomes of external library calls (libimobiledevice, sqlite3, OpenSSL,
  fopen) are inputs of the model, collected in environment structures.
* A path on which the C program has undefined behaviour that in practice
  terminates the process (`fread`/`fwrite` on a NULL `FILE*`) is modelled as
  an explicit `crash` outcome carrying the disk state at the crash point.
-/

/-- Byte contents of a file. -/
abbrev Bytes := List Nat

/-- The local filesystem: file name to contents. -/
def FS := String → Option Bytes

/-- The empty working directory. -/
def emptyFS : FS := fun _ => none

/-- Read a file (`none` = the file does not exist). -/
def getFile (fs : FS) (n : String) : Option Bytes := fs n

/-- Create or overwrite a file (`fopen(…, "w")` + writes). -/
def setFile (fs : FS) (n : String) (c : Bytes) : FS :=
  fun m => if m = n then some c else fs m

/-- Delete a file (`remove`). -/
def removeFile (fs : FS) (n : String) : FS :=
  fun m => if m = n then none else fs m

/-- Bytes of a string, as written by `fprintf` text output. -/
def strBytes (s : String) : Bytes := s.data.map Char.toNat

/-- Resource state of the process: the four globals of `iOSynthesis.c`
(pointer flag and heap-liveness flag each), the heap objects held in local
variables, and a flag recording whether any object was ever freed twice. -/
structure St where
  devPtr : Bool
  devLive : Bool
  lockPtr : Bool
  lockLive : Bool
  afcPtr : Bool
  afcLive : Bool
  udidPtr : Bool
  udidLive : Bool
  /-- the `service` descriptor local to `connect_to_device` -/
  afcSvcLive : Bool
  /-- the `service` descriptor local to `extract_installed_apps` -/
  ipSvcLive : Bool
  /-- the `ipc` installation-proxy client -/
  ipcLive : Bool
  /-- the `client_opts` plist -/
  optsLive : Bool
  /-- the `apps` plist -/
  appsLive : Bool
  doubleFree : Bool
  deriving Repr, DecidableEq

/-- Process start: all globals NULL, nothing allocated. -/
def initSt : St :=
  ⟨false, false, false, false, false, false, false, false,
   false, false, false, false, false, false⟩

/-- Models `if (p) free(p)` on a global: freeing through a dangling pointer
(non-NULL but already freed) is a double free. Returns the new liveness and
the new double-free flag. -/
def freeIfPtr (ptr live df : Bool) : Bool × Bool :=
  if ptr then (false, df || !live) else (live, df)

/-- Outcomes of the external calls made by `connect_to_device`. -/
structure ConnEnv where
  /-- the `idevice_new` call succeeds -/
  ideviceOk : Bool
  /-- the `lockdownd_client_new_with_handshake` call succeeds -/
  handshakeOk : Bool
  /-- the `lockdownd_start_service` call for `com.apple.afc` succeeds -/
  afcSvcOk : Bool
  /-- the `afc_client_new` call succeeds -/
  afcClientOk : Bool
  deriving Repr, DecidableEq

/-- Model of `connect_to_device` (iOSynthesis.c lines 54–85), step for step:
discovery, handshake, `lockdownd_get_device_udid` (return value unchecked,
allocates `udid`), AFC service start, AFC client creation.  Error paths free
exactly what the C code frees: on handshake failure the device; on service
or client failure the lockdown client and the device — never the `udid`
allocation, and on the client-failure path not the service descriptor
either.  On success the service descriptor is freed (line 83). -/
def connect_to_device (e : ConnEnv) (s : St) : Int × St :=
  if !e.ideviceOk then
    (-1, s)
  else
    let s := { s with devPtr := true, devLive := true }
    if !e.handshakeOk then
      (-1, { s with devLive := false })
    else
      let s := { s with lockPtr := true, lockLive := true }
      let s := { s with udidPtr := true, udidLive := true }
      if !e.afcSvcOk then
        (-1, { s with lockLive := false, devLive := false })
      else
        let s := { s with afcSvcLive := true }
        if !e.afcClientOk then
          (-1, { s with lockLive := false, devLive := false })
        else
          (0, { s with afcPtr := true, afcLive := true, afcSvcLive := false })

/-- Model of `disconnect_from_device` (lines 87–92): `if (p) p_free(p)` for `afc`,
`lockdown`, `device`, `udid`, in that order.  The globals are never reset to
NULL, so the pointer flags are left unchanged. -/
def disconnect_from_device (s : St) : St :=
  let a := freeIfPtr s.afcPtr s.afcLive s.doubleFree
  let l := freeIfPtr s.lockPtr s.lockLive a.2
  let d := freeIfPtr s.devPtr s.devLive l.2
  let u := freeIfPtr s.udidPtr s.udidLive d.2
  { s with afcLive := a.1, lockLive := l.1, devLive := d.1, udidLive := u.1,
           doubleFree := u.2 }

/-- The resource state after a successful `connect_to_device` from process
start. -/
def connectedSt : St :=
  ⟨true, true, true, true, true, true, true, true,
   false, false, false, false, false, false⟩

example : connect_to_device ⟨true, true, true, true⟩ initSt = (0, connectedSt) := by
  decide

example : (connect_to_device ⟨true, true, true, false⟩ initSt).2.udidLive = true := by
  decide

/-! ## Crypto sealer: `encrypt_file` -/

/-- The EVP encryption context as seen by the C code: whether
`EVP_EncryptInit_ex` succeeds (its return value is discarded by the source),
the abstract initial context state produced by initialisation with the fixed
hard-coded key and NULL (hence all-zero) IV, and the deterministic
`EVP_EncryptUpdate` / `EVP_EncryptFinal_ex` functions of the library.  The
context state is opaque (`Bytes`). -/
structure Evp where
  initOk : Bool
  init : Bytes
  update : Bytes → Bytes → Bytes × Bytes
  final : Bytes → Bytes

/-- Split a byte stream into the successive chunks read by
`fread(inbuf, 1, 1024, ifp)`. -/
def chunks1024 : Bytes → List Bytes
  | [] => []
  | a :: rest =>
    (a :: rest).take 1024 :: chunks1024 ((a :: rest).drop 1024)
termination_by l => l.length
decreasing_by
  simp only [List.length_drop, List.length_cons]
  omega

/-- The bytes `encrypt_file` writes to its output: the concatenation of the
per-chunk `EVP_EncryptUpdate` outputs followed by the `EVP_EncryptFinal_ex`
output, threading the context state through the chunks. -/
def encBytes (ev : Evp) (ib : Bytes) : Bytes :=
  let r := (chunks1024 ib).foldl
    (fun (p : Bytes × Bytes) c =>
      let u := ev.update p.1 c
      (u.1, p.2 ++ u.2))
    (ev.init, [])
  r.2 ++ ev.final r.1

/-- Outcome of a program fragment that may crash the process; a crash
carries the disk state at the point of the crash. -/
inductive POut (α : Type) where
  | ok : α → FS → POut α
  | crash : FS → POut α

/-- Model of `encrypt_file` (lines 31–52).  Both `fopen` calls happen before any
check — there is none: the function checks nothing and returns nothing.
`fopen(output_file, "wb")` truncates/creates the destination whenever it is
writable (`outOk`).  A NULL input stream crashes at the first `fread`; a
NULL output stream crashes at `fwrite`.  The result of
`EVP_EncryptInit_ex` (`ev.initOk`) is discarded, exactly as in the source,
so a cipher-initialisation failure does not stop the function.  When the
source file is open for reading while the destination was truncated, the
bytes actually read are the post-truncation contents. -/
def encrypt_file (ev : Evp) (outOk : Bool) (fs : FS) (input output : String) :
    POut Unit :=
  let inOpen := (getFile fs input).isSome
  let fs1 := if outOk then setFile fs output [] else fs
  if !inOpen then
    .crash fs1
  else if !outOk then
    .crash fs1
  else
    let ib := (getFile fs1 input).getD []
    .ok () (setFile fs1 output (encBytes ev ib))

/-! ## Message extractor: `extract_sms_messages` -/

/-- One row of the copied message store's `message` table (the columns the
query touches).  `date` is the raw numeric timestamp; `text` may be NULL. -/
structure Msg where
  date : Nat
  handle_id : Nat
  text : Option String
  deriving Repr, DecidableEq

/-- One row of the `handle` table: its ROWID and the `id` (phone number)
column, which may be NULL. -/
structure Handle where
  rowid : Nat
  id : Option String
  deriving Repr, DecidableEq

/-- Stand-in for SQLite's `datetime(date, 'unixepoch')` rendering of a
timestamp; the pipeline treats the rendered text as opaque. -/
def dtFormat (n : Nat) : String := toString n

/-- One result row of the extraction query. -/
structure SmsRow where
  date : Nat
  phone : Option String
  body : Option String
  deriving Repr, DecidableEq

/-- Descending-timestamp comparison used by `ORDER BY message.date DESC`. -/
def msgGE (a b : Msg) : Prop := b.date ≤ a.date

instance : DecidableRel msgGE := fun a b => Nat.decLe b.date a.date

instance : IsTotal Msg msgGE := ⟨fun a b => Nat.le_total b.date a.date⟩

instance : IsTrans Msg msgGE := ⟨fun _ _ _ h1 h2 => Nat.le_trans h2 h1⟩

/-- The LEFT JOIN rows contributed by one message: one row per `handle`
with matching ROWID, or a single row with NULL phone number when no handle
matches. -/
def joinOne (handles : List Handle) (m : Msg) : List SmsRow :=
  match handles.filter (fun h => h.rowid == m.handle_id) with
  | [] => [⟨m.date, none, m.text⟩]
  | hs => hs.map fun h => ⟨m.date, h.id, m.text⟩

/-- Result of the prepared query (lines 117–120):
`SELECT datetime(message.date,'unixepoch'), handle.id, message.text FROM
message LEFT JOIN handle ON message.handle_id = handle.ROWID ORDER BY
message.date DESC`. -/
def smsQuery (msgs : List Msg) (handles : List Handle) : List SmsRow :=
  (List.insertionSort msgGE msgs).flatMap (joinOne handles)

/-- Rendering of one row by `fprintf(output, "%s,%s,%s\n", …)` with
`sqlite3_column_text` results: a NULL column gives a NULL `char*`, which
glibc's `printf` renders as the literal text `(null)`. -/
def csvLine (r : SmsRow) : String :=
  dtFormat r.date ++ "," ++ r.phone.getD "(null)" ++ ","
    ++ r.body.getD "(null)" ++ "\n"

/-- Full text written to the plaintext output file: header line (line 130)
then one line per query row. -/
def smsCsv (msgs : List Msg) (handles : List Handle) : String :=
  "Date,Phone Number,Message\n"
    ++ String.join ((smsQuery msgs handles).map csvLine)

/-- Outcomes of the external calls made by `extract_sms_messages`, and the
device-side data they expose. -/
structure SmsEnv where
  /-- the fetch of `/var/mobile/Library/SMS/sms.db` succeeds -/
  copyOk : Bool
  /-- raw bytes of the fetched message store -/
  smsDbBytes : Bytes
  /-- the `sqlite3_open` call on the local copy succeeds -/
  dbOpenOk : Bool
  /-- the `fopen` call on the plaintext output succeeds -/
  outOpenOk : Bool
  /-- the `sqlite3_prepare_v2` call succeeds -/
  prepareOk : Bool
  /-- contents of the `message` table of the copied store -/
  msgs : List Msg
  /-- contents of the `handle` table of the copied store -/
  handles : List Handle
  /-- the `fopen` call on the sealed output inside `encrypt_file` succeeds -/
  encOutOk : Bool

/-- Model of `copy_file` as called on line 99.  Modelled from the spec: the function
itself is not part of `iOSynthesis.c` (it is called but nowhere defined in
the repository); per spec §4.2 the Remote File Fetcher copies the entire
remote file to `local_path` and fails with a transfer error on any read or
write failure.  A failed fetch is modelled as leaving the filesystem
unchanged. -/
def copy_file (ok : Bool) (content : Bytes) (fs : FS) (local_path : String) :
    Bool × FS :=
  if ok then (true, setFile fs local_path content) else (false, fs)

/-- Model of `extract_sms_messages` (lines 94–150): fetch the store to
`<udid>_sms.db`, open it, open the plaintext output, prepare the query,
write header and rows, seal via `encrypt_file` into `<output_file>.enc`,
then `remove(output_file)` — unconditionally, since `encrypt_file` returns
no status.  Early failures return −1 without touching later steps. -/
def extract_sms_messages (se : SmsEnv) (ev : Evp) (udid output_file : String)
    (fs : FS) : POut Int :=
  let local_path := udid ++ "_sms.db"
  let c := copy_file se.copyOk se.smsDbBytes fs local_path
  if !c.1 then
    .ok (-1) c.2
  else if !se.dbOpenOk then
    .ok (-1) c.2
  else if !se.outOpenOk then
    .ok (-1) c.2
  else
    let fs2 := setFile c.2 output_file []
    if !se.prepareOk then
      .ok (-1) fs2
    else
      let fs3 := setFile fs2 output_file (strBytes (smsCsv se.msgs se.handles))
      match encrypt_file ev se.encOutOk fs3 output_file (output_file ++ ".enc") with
      | .crash fs4 => .crash fs4
      | .ok _ fs4 => .ok 0 (removeFile fs4 output_file)

/-! ## Inventory extractor: `extract_installed_apps` -/

/-- One entry of the installation-proxy browse result: the three fields the
extractor reads, each absent when the dictionary lacks the key. -/
structure AppEntry where
  name : Option String
  bundle : Option String
  version : Option String
  deriving Repr, DecidableEq

/-- The row written for one complete entry
(`fprintf(output, "%s,%s,%s\n", …)`, line 204). -/
def appLine (n b v : String) : String := n ++ "," ++ b ++ "," ++ v ++ "\n"

/-- Rows emitted by the loop of lines 190–210: an entry contributes a row
exactly when all three fields are present; incomplete entries are skipped
silently. -/
def appRows (apps : List AppEntry) : List String :=
  apps.filterMap fun a =>
    match a.name, a.bundle, a.version with
    | some n, some b, some v => some (appLine n b v)
    | _, _, _ => none

/-- Full text of `installed_apps.csv`: header (line 187) then the kept
rows. -/
def appsCsv (apps : List AppEntry) : String :=
  "App Name,Bundle ID,Version\n" ++ String.join (appRows apps)

/-- Outcomes of the external calls made by `extract_installed_apps`. -/
structure AppsEnv where
  /-- the `lockdownd_start_service` call for the installation proxy succeeds -/
  ipSvcOk : Bool
  /-- the `instproxy_client_new` call succeeds -/
  ipcOk : Bool
  /-- the `instproxy_browse` call succeeds -/
  browseOk : Bool
  /-- the `fopen` call on `installed_apps.csv` succeeds -/
  outOk : Bool
  /-- the browse result -/
  apps : List AppEntry

/-- Model of `extract_installed_apps` (lines 152–219), step for step.  The
installation-proxy service descriptor is freed only on the
client-creation-failure path (line 163): on the browse-failure,
output-failure and success paths it is left allocated.  The client, the
options plist and the apps plist are freed on every path that allocated
them. -/
def extract_installed_apps (e : AppsEnv) (s : St) (fs : FS) :
    Int × St × FS :=
  if !e.ipSvcOk then
    (-1, s, fs)
  else
    let s := { s with ipSvcLive := true }
    if !e.ipcOk then
      (-1, { s with ipSvcLive := false }, fs)
    else
      let s := { s with ipcLive := true, optsLive := true }
      if !e.browseOk then
        (-1, { s with optsLive := false, ipcLive := false }, fs)
      else
        let s := { s with appsLive := true }
        if !e.outOk then
          (-1, { s with appsLive := false, optsLive := false, ipcLive := false }, fs)
        else
          let fs := setFile fs "installed_apps.csv" (strBytes (appsCsv e.apps))
          (0, { s with appsLive := false, optsLive := false, ipcLive := false }, fs)

/-! ## Report synthesizer: `generate_report` -/

/-- Stand-in for `ctime(&now)` (a text rendering of the clock value,
trailing newline included). -/
def ctimeStr (now : Nat) : String := toString now ++ "\n"

/-- The full report text written by `generate_report` (lines 228–238):
title, timestamp, device UDID, and two hard-coded artifact lines that name
`sms_messages.csv.enc` and `installed_apps.csv` whether or not those files
were produced. -/
def reportContent (udid : String) (now : Nat) : String :=
  "iOSynthesis Forensic Report\n" ++
  "==========================\n\n" ++
  "Report generated on: " ++ ctimeStr now ++
  "Device UDID: " ++ udid ++ "\n\n" ++
  "1. Extracted Data\n" ++
  "   - SMS messages: sms_messages.csv.enc\n" ++
  "   - Installed apps: installed_apps.csv\n"

/-- Model of `generate_report` (lines 221–241): if the report file opens, write the
fixed report text; otherwise print an error and return (the function is
`void`, so failure is invisible to the caller). -/
def generate_report (openOk : Bool) (udid : String) (now : Nat) (fs : FS)
    (output_file : String) : FS :=
  if openOk then setFile fs output_file (strBytes (reportContent udid now)) else fs

/-! ## Pipeline orchestrator: `main` -/

/-- Which pipeline stages executed during a run. -/
structure Trace where
  ranSms : Bool
  ranApps : Bool
  ranReport : Bool
  ranClose : Bool
  deriving Repr, DecidableEq

/-- Everything observable about one run of the program: the exit code
(`none` when the process crashed), the final resource state, the final
disk state, and which stages ran. -/
structure RunResult where
  exitCode : Option Int
  st : St
  fs : FS
  trace : Trace

/-- The environment of one full run. -/
structure Env where
  conn : ConnEnv
  /-- the device identifier retrieved by `lockdownd_get_device_udid` -/
  udid : String
  sms : SmsEnv
  apps : AppsEnv
  /-- the `fopen` call on `forensic_report.txt` succeeds -/
  reportOk : Bool
  /-- the clock value read by `time(NULL)` -/
  now : Nat

/-- Model of `main` (lines 243–257): connect (exit 1 on failure, nothing else runs);
then `extract_sms_messages`, `extract_installed_apps` and
`generate_report`, their return values ignored; then
`disconnect_from_device`; exit 0.  A crash inside the message extractor
terminates the process there. -/
def mainRun (e : Env) (ev : Evp) (fs0 : FS) : RunResult :=
  let c := connect_to_device e.conn initSt
  if c.1 != 0 then
    ⟨some 1, c.2, fs0, ⟨false, false, false, false⟩⟩
  else
    match extract_sms_messages e.sms ev e.udid "sms_messages.csv" fs0 with
    | .crash fs1 => ⟨none, c.2, fs1, ⟨true, false, false, false⟩⟩
    | .ok _ fs1 =>
      let a := extract_installed_apps e.apps c.2 fs1
      let fs3 := generate_report e.reportOk e.udid e.now a.2.2 "forensic_report.txt"
      let s3 := disconnect_from_device a.2.1
      ⟨some 0, s3, fs3, ⟨true, true, true, true⟩⟩

/-! ## Basic lemmas about the filesystem model and file names -/

@[simp]
theorem getFile_setFile_self (fs : FS) (n : String) (c : Bytes) :
    getFile (setFile fs n c) n = some c := by
  simp [getFile, setFile]

theorem getFile_setFile_ne (fs : FS) {m n : String} (c : Bytes) (h : m ≠ n) :
    getFile (setFile fs n c) m = getFile fs m := by
  simp [getFile, setFile, h]

@[simp]
theorem getFile_removeFile_self (fs : FS) (n : String) :
    getFile (removeFile fs n) n = none := by
  simp [getFile, removeFile]

theorem getFile_removeFile_ne (fs : FS) {m n : String} (h : m ≠ n) :
    getFile (removeFile fs n) m = getFile fs m := by
  simp [getFile, removeFile, h]

/-- Appending a nonempty suffix cannot produce a string whose last character
differs from the suffix's last character. -/
theorem append_ne_of_last_ne (u s t : String) (c d : Char)
    (hs : s.data.getLast? = some c) (ht : t.data.getLast? = some d)
    (hcd : c ≠ d) : u ++ s ≠ t := by
  intro he
  have hdata : (u ++ s).data = t.data := congrArg String.data he
  rw [String.data_append] at hdata
  have hsne : s.data ≠ [] := by
    intro h0
    rw [h0] at hs
    simp at hs
  have := List.getLast?_append_of_ne_nil u.data hsne
  rw [hdata, hs, ht] at this
  exact hcd (Option.some.inj this.symm)

/-- A string is never equal to itself extended by a nonempty suffix. -/
theorem self_ne_append (s t : String) (ht : t.data ≠ []) : s ≠ s ++ t := by
  intro he
  have hdata : s.data = (s ++ t).data := congrArg String.data he
  rw [String.data_append] at hdata
  have : s.data.length = s.data.length + t.data.length := by
    conv_lhs => rw [hdata]
    simp
  have : t.data.length = 0 := by omega
  exact ht (List.length_eq_zero.mp this)

/-! ## The shape of the message query result -/

/-- The sender the LEFT JOIN resolves for a message: the `id` column of the
unique `handle` row whose ROWID matches, `none` when no row matches or the
column is NULL. -/
def senderOf (handles : List Handle) (m : Msg) : Option String :=
  (handles.find? (fun h => h.rowid == m.handle_id)).bind Handle.id

/-- Under the ROWID uniqueness that SQLite guarantees for the `handle`
table, each message contributes exactly one LEFT JOIN row. -/
theorem joinOne_eq (handles : List Handle) (m : Msg)
    (hnd : (handles.map Handle.rowid).Nodup) :
    joinOne handles m = [⟨m.date, senderOf handles m, m.text⟩] := by
  induction handles with
  | nil => rfl
  | cons h t ih =>
    rw [List.map_cons, List.nodup_cons] at hnd
    by_cases hEq : h.rowid == m.handle_id
    · have htf : t.filter (fun x => x.rowid == m.handle_id) = [] := by
        rw [List.filter_eq_nil_iff]
        intro x hx hpx
        apply hnd.1
        have : x.rowid = m.handle_id := by simpa using hpx
        have h2 : h.rowid = m.handle_id := by simpa using hEq
        rw [h2, ← this]
        exact List.mem_map_of_mem Handle.rowid hx
      simp only [joinOne, List.filter_cons, hEq, if_pos, htf, senderOf,
        List.find?_cons, List.map_cons, List.map_nil]
      rfl
    · have hEq' : (h.rowid == m.handle_id) = false := by
        simpa using hEq
      simp only [joinOne, senderOf, List.filter_cons, hEq', List.find?_cons,
        Bool.false_eq_true, if_false, cond_false]
      exact ih hnd.2

/-- A `flatMap` whose function yields singletons is a `map`. -/
theorem flatMap_eq_map_of_singleton {α β : Type} (f : α → List β) (g : α → β)
    (hfg : ∀ x, f x = [g x]) : ∀ l : List α, l.flatMap f = l.map g := by
  intro l
  induction l with
  | nil => rfl
  | cons a t ih => simp [List.flatMap_cons, hfg a, ih]

/-- The query result, under ROWID uniqueness: the messages sorted by
descending timestamp, each mapped to its single LEFT JOIN row. -/
theorem smsQuery_eq_map (msgs : List Msg) (handles : List Handle)
    (hnd : (handles.map Handle.rowid).Nodup) :
    smsQuery msgs handles =
      (List.insertionSort msgGE msgs).map
        (fun m => ⟨m.date, senderOf handles m, m.text⟩) := by
  unfold smsQuery
  exact flatMap_eq_map_of_singleton _ _ (fun m => joinOne_eq handles m hnd) _

/-! ## Observation helpers and concrete cipher instances -/

/-- The fixed key baked into the binary (line 18). -/
def ENCRYPTION_KEY : String := "iOSynthesisSecretKey123"

/-- Return value carried by a program-fragment outcome (`none` when the
process crashed). -/
def poutCode {α : Type} : POut α → Option α
  | .ok v _ => some v
  | .crash _ => none

/-- Disk state left behind by a program-fragment outcome (also defined for
a crash: the files persist). -/
def poutFS {α : Type} : POut α → FS
  | .ok _ fs => fs
  | .crash fs => fs

/-- A concrete instantiation of the cipher primitive (initialisation
succeeds); used to evaluate the model on closed inputs. -/
def trivEvp : Evp := ⟨true, [], fun st c => (st, c), fun _ => []⟩

/-- A concrete instantiation of the cipher primitive whose
`EVP_EncryptInit_ex` FAILS (`initOk = false`); the source discards that
return value, so the remaining calls still run. -/
def badInitEvp : Evp := ⟨false, [], fun st c => (st, c), fun _ => []⟩

/-- An entry passes the extractor's completeness check when all three
fields are present. -/
def appComplete (a : AppEntry) : Bool :=
  a.name.isSome && a.bundle.isSome && a.version.isSome

/-! ## Supporting lemmas about the session lifecycle -/

/-- A successful open requires all four steps to succeed, and its result is
the fully-connected state. -/
theorem connect_ok (e : ConnEnv)
    (h : e.ideviceOk ∧ e.handshakeOk ∧ e.afcSvcOk ∧ e.afcClientOk) :
    connect_to_device e initSt = (0, connectedSt) := by
  rcases e with ⟨i, hs, sv, cl⟩
  obtain ⟨rfl, rfl, rfl, rfl⟩ := h
  decide

/-- Open fails exactly when one of the four steps fails. -/
theorem connect_fail_iff (e : ConnEnv) :
    (connect_to_device e initSt).1 = -1 ↔
      ¬(e.ideviceOk ∧ e.handshakeOk ∧ e.afcSvcOk ∧ e.afcClientOk) := by
  rcases e with ⟨i, hs, sv, cl⟩
  cases i <;> cases hs <;> cases sv <;> cases cl <;> decide

/-- Effect of the inventory extractor on the resource state when started
from the connected state: every resource it allocates is freed again except
the installation-proxy service descriptor, which stays allocated exactly
when the service started and the client creation succeeded. -/
theorem apps_st (ae : AppsEnv) (fs : FS) :
    (extract_installed_apps ae connectedSt fs).2.1 =
      { connectedSt with ipSvcLive := ae.ipSvcOk && ae.ipcOk } := by
  rcases ae with ⟨sv, ipc, br, out, apps⟩
  cases sv <;> cases ipc <;> cases br <;> cases out <;>
    simp [extract_installed_apps, connectedSt]

/-- Effect of `disconnect_from_device` on the connected state with the
installation-proxy descriptor possibly still allocated. -/
theorem disconnect_connected (b : Bool) :
    disconnect_from_device { connectedSt with ipSvcLive := b } =
      ⟨true, false, true, false, true, false, true, false,
       false, b, false, false, false, false⟩ := by
  cases b <;> decide

/-! ## Supporting lemmas about the message extractor -/

/-- A failure of the fetch, the database open, the output open or the query
preparation makes the message extractor return −1 without reaching the seal
step (no crash). -/
theorem sms_fail (se : SmsEnv) (ev : Evp) (u o : String) (fs : FS)
    (h : ¬(se.copyOk ∧ se.dbOpenOk ∧ se.outOpenOk ∧ se.prepareOk)) :
    ∃ fs1, extract_sms_messages se ev u o fs = .ok (-1) fs1 := by
  rcases se with ⟨c, bytes, db, out, prep, msgs, handles, enc⟩
  simp only [not_and_or] at h
  cases c <;> cases db <;> cases out <;> cases prep <;>
    simp_all [extract_sms_messages, copy_file]

/-- Normal form of a fully successful message extraction: the fetched store
is written, the plaintext is written, the sealed file is written, and the
plaintext is removed again. -/
theorem sms_success (se : SmsEnv) (ev : Evp) (u o : String) (fs : FS)
    (h : se.copyOk ∧ se.dbOpenOk ∧ se.outOpenOk ∧ se.prepareOk ∧ se.encOutOk) :
    extract_sms_messages se ev u o fs =
      .ok 0 (removeFile
        (setFile
          (setFile
            (setFile (setFile (setFile fs (u ++ "_sms.db") se.smsDbBytes) o [])
              o (strBytes (smsCsv se.msgs se.handles)))
            (o ++ ".enc") [])
          (o ++ ".enc")
          (encBytes ev (strBytes (smsCsv se.msgs se.handles))))
        o) := by
  obtain ⟨h1, h2, h3, h4, h5⟩ := h
  have hne : o ≠ o ++ ".enc" := self_ne_append o ".enc" (by decide)
  simp only [extract_sms_messages, copy_file, h1, h2, h3, h4, h5, if_true,
    Bool.not_true, Bool.false_eq_true, if_false, encrypt_file]
  rw [getFile_setFile_ne _ _ (Ne.symm (Ne.symm hne))]
  · simp [encrypt_file, getFile_setFile_ne, hne]

/-! ## Claim C1: cleanup on failed open -/

/-- C1 counterexample: when `afc_client_new` fails (all preceding steps
having succeeded), `connect_to_device` returns −1 but leaves both the
identifier memory (`udid`) and the AFC service descriptor allocated — a
failed open does leak resources, contrary to the claim. -/
theorem connect_failed_open_leaks :
    (connect_to_device ⟨true, true, true, false⟩ initSt).1 = -1
  ∧ (connect_to_device ⟨true, true, true, false⟩ initSt).2.udidLive = true
  ∧ (connect_to_device ⟨true, true, true, false⟩ initSt).2.afcSvcLive = true := by
  decide

/-- C1 (amended): if any step of the open sequence fails, the device handle
and the lockdown client opened by preceding steps are released before the
error is returned (and the AFC client is never left open), but the
identifier memory is leaked whenever the handshake had succeeded, and the
AFC service descriptor is leaked on the AFC-client-creation failure path. -/
theorem connect_failure_cleanup (e : ConnEnv)
    (h : (connect_to_device e initSt).1 = -1) :
    (connect_to_device e initSt).2.devLive = false
  ∧ (connect_to_device e initSt).2.lockLive = false
  ∧ (connect_to_device e initSt).2.afcLive = false
  ∧ (connect_to_device e initSt).2.udidLive = (e.ideviceOk && e.handshakeOk)
  ∧ (connect_to_device e initSt).2.afcSvcLive
      = (e.ideviceOk && e.handshakeOk && e.afcSvcOk) := by
  rcases e with ⟨i, hs, sv, cl⟩
  cases i <;> cases hs <;> cases sv <;> cases cl <;> revert h <;> decide

/-- C1 witness: the amended cleanup statement, evaluated on the run in
which AFC client creation fails. -/
theorem connect_failure_cleanup_witness :
    ((connect_to_device ⟨true, true, true, false⟩ initSt).1 = -1)
  ∧ ((connect_to_device ⟨true, true, true, false⟩ initSt).2.devLive = false
     ∧ (connect_to_device ⟨true, true, true, false⟩ initSt).2.lockLive = false
     ∧ (connect_to_device ⟨true, true, true, false⟩ initSt).2.afcLive = false
     ∧ (connect_to_device ⟨true, true, true, false⟩ initSt).2.udidLive
         = (ConnEnv.ideviceOk ⟨true, true, true, false⟩
            && ConnEnv.handshakeOk ⟨true, true, true, false⟩)
     ∧ (connect_to_device ⟨true, true, true, false⟩ initSt).2.afcSvcLive
         = (ConnEnv.ideviceOk ⟨true, true, true, false⟩
            && ConnEnv.handshakeOk ⟨true, true, true, false⟩
            && ConnEnv.afcSvcOk ⟨true, true, true, false⟩)) :=
  ⟨by decide, connect_failure_cleanup ⟨true, true, true, false⟩ (by decide)⟩

/-! ## Claim C8: idempotence and safety of close -/

/-- C8 counterexample: after one `disconnect_from_device` on a fully-open
session nothing has been freed twice, but the globals still hold dangling
non-NULL pointers, so a second `disconnect_from_device` frees every one of
the four resources a second time — close is not idempotent. -/
theorem disconnect_twice_double_frees :
    (disconnect_from_device connectedSt).doubleFree = false
  ∧ (disconnect_from_device (disconnect_from_device connectedSt)).doubleFree
      = true := by
  decide

/-- A session state in which every non-NULL global still points to a live
allocation and nothing has been freed twice: this covers the
fully-initialized state, every partially-initialized state, and the
never-opened state, but not a state already torn down. -/
def sessionWF (s : St) : Prop :=
  s.afcLive = s.afcPtr ∧ s.lockLive = s.lockPtr ∧ s.devLive = s.devPtr
    ∧ s.udidLive = s.udidPtr ∧ s.doubleFree = false

instance (s : St) : Decidable (sessionWF s) := by
  unfold sessionWF
  infer_instance

/-- C8 (amended): a single close of a possibly partially-initialized
session is safe — each null/never-opened resource is skipped as a no-op,
each open resource is freed exactly once, and no double free occurs; but
close is not idempotent, because the freed handles are not cleared: a
second close on a previously fully-open session frees resources twice. -/
theorem disconnect_safe_but_not_idempotent (s : St) (h : sessionWF s) :
    ((disconnect_from_device s).doubleFree = false
      ∧ (disconnect_from_device s).afcLive = false
      ∧ (disconnect_from_device s).lockLive = false
      ∧ (disconnect_from_device s).devLive = false
      ∧ (disconnect_from_device s).udidLive = false)
  ∧ (disconnect_from_device (disconnect_from_device connectedSt)).doubleFree
      = true := by
  obtain ⟨h1, h2, h3, h4, h5⟩ := h
  refine ⟨?_, by decide⟩
  rcases s with ⟨dp, dl, lp, ll, ap, al, up, ul, x1, x2, x3, x4, x5, df⟩
  simp only at h1 h2 h3 h4 h5
  subst h1 h2 h3 h4 h5
  cases dl <;> cases ll <;> cases al <;> cases ul <;>
    simp [disconnect_from_device, freeIfPtr]

/-- C8 witness: the amended close-safety statement, evaluated on a
partially-initialized session (only the device handle was opened). -/
theorem disconnect_safe_but_not_idempotent_witness :
    sessionWF ⟨true, true, false, false, false, false, false, false,
               false, false, false, false, false, false⟩
  ∧ (((disconnect_from_device
        ⟨true, true, false, false, false, false, false, false,
         false, false, false, false, false, false⟩).doubleFree = false
      ∧ (disconnect_from_device
          ⟨true, true, false, false, false, false, false, false,
           false, false, false, false, false, false⟩).afcLive = false
      ∧ (disconnect_from_device
          ⟨true, true, false, false, false, false, false, false,
           false, false, false, false, false, false⟩).lockLive = false
      ∧ (disconnect_from_device
          ⟨true, true, false, false, false, false, false, false,
           false, false, false, false, false, false⟩).devLive = false
      ∧ (disconnect_from_device
          ⟨true, true, false, false, false, false, false, false,
           false, false, false, false, false, false⟩).udidLive = false)
    ∧ (disconnect_from_device (disconnect_from_device connectedSt)).doubleFree
        = true) :=
  ⟨by decide,
   disconnect_safe_but_not_idempotent
     ⟨true, true, false, false, false, false, false, false,
      false, false, false, false, false, false⟩ (by decide)⟩

/-! ## Claims C2 and C3: the pipeline after a session exists -/

/-- A session open that reports success has performed all four steps and
left exactly the connected state. -/
theorem connect_eq_of_ok (e : ConnEnv)
    (h : (connect_to_device e initSt).1 = 0) :
    connect_to_device e initSt = (0, connectedSt) := by
  rcases e with ⟨i, hs, sv, cl⟩
  cases i <;> cases hs <;> cases sv <;> cases cl <;> revert h <;> decide

/-- C2 counterexample: a run in which every step succeeds reaches session
close (`ranClose = true`), yet after close the installation-proxy service
descriptor opened lazily by the inventory extractor is still allocated —
close does not release it, contrary to the claim. -/
theorem ip_service_descriptor_outlives_close :
    (mainRun ⟨⟨true, true, true, true⟩, "u",
        ⟨true, [7], true, true, true, [], [], true⟩,
        ⟨true, true, true, true, []⟩, true, 0⟩ trivEvp emptyFS).trace.ranClose
      = true
  ∧ (mainRun ⟨⟨true, true, true, true⟩, "u",
        ⟨true, [7], true, true, true, [], [], true⟩,
        ⟨true, true, true, true, []⟩, true, 0⟩ trivEvp emptyFS).st.ipSvcLive
      = true := by
  decide

/-- C2 (amended): in every run that reaches session close, the close
releases the AFC client, the lockdown client, the device handle and the
identifier memory, the inventory extractor has already released its
installation-proxy client and plists, and no double free occurs — but the
installation-proxy service descriptor remains open after close exactly when
the service was started and the proxy client was created (the descriptor is
freed only on the client-creation-failure path). -/
theorem close_releases_all_but_ip_descriptor (e : Env) (ev : Evp) (fs0 : FS)
    (h : (mainRun e ev fs0).trace.ranClose = true) :
    (mainRun e ev fs0).st.afcLive = false
  ∧ (mainRun e ev fs0).st.lockLive = false
  ∧ (mainRun e ev fs0).st.devLive = false
  ∧ (mainRun e ev fs0).st.udidLive = false
  ∧ (mainRun e ev fs0).st.afcSvcLive = false
  ∧ (mainRun e ev fs0).st.ipcLive = false
  ∧ (mainRun e ev fs0).st.optsLive = false
  ∧ (mainRun e ev fs0).st.appsLive = false
  ∧ (mainRun e ev fs0).st.doubleFree = false
  ∧ (mainRun e ev fs0).st.ipSvcLive = (e.apps.ipSvcOk && e.apps.ipcOk) := by
  by_cases hc : (connect_to_device e.conn initSt).1 = 0
  · have hEq := connect_eq_of_ok e.conn hc
    cases hm : extract_sms_messages e.sms ev e.udid "sms_messages.csv" fs0 with
    | crash fs1 =>
      exfalso
      simp [mainRun, hEq, hm] at h
    | ok v fs1 =>
      simp only [mainRun, hEq, hm, bne_self_eq_false, Bool.false_eq_true,
        if_false]
      rw [apps_st, disconnect_connected]
      simp
  · exfalso
    have : (connect_to_device e.conn initSt).1 != 0 := by
      simpa using hc
    simp [mainRun, this] at h

/-- C2 witness: the amended close statement, evaluated on the all-success
run. -/
theorem close_releases_all_but_ip_descriptor_witness :
    (mainRun ⟨⟨true, true, true, true⟩, "w",
        ⟨true, [], true, true, true, [], [], true⟩,
        ⟨true, true, true, true, []⟩, true, 0⟩ trivEvp emptyFS).trace.ranClose
      = true
  ∧ ((mainRun ⟨⟨true, true, true, true⟩, "w",
        ⟨true, [], true, true, true, [], [], true⟩,
        ⟨true, true, true, true, []⟩, true, 0⟩ trivEvp emptyFS).st.afcLive = false
    ∧ (mainRun ⟨⟨true, true, true, true⟩, "w",
        ⟨true, [], true, true, true, [], [], true⟩,
        ⟨true, true, true, true, []⟩, true, 0⟩ trivEvp emptyFS).st.lockLive = false
    ∧ (mainRun ⟨⟨true, true, true, true⟩, "w",
        ⟨true, [], true, true, true, [], [], true⟩,
        ⟨true, true, true, true, []⟩, true, 0⟩ trivEvp emptyFS).st.devLive = false
    ∧ (mainRun ⟨⟨true, true, true, true⟩, "w",
        ⟨true, [], true, true, true, [], [], true⟩,
        ⟨true, true, true, true, []⟩, true, 0⟩ trivEvp emptyFS).st.udidLive = false
    ∧ (mainRun ⟨⟨true, true, true, true⟩, "w",
        ⟨true, [], true, true, true, [], [], true⟩,
        ⟨true, true, true, true, []⟩, true, 0⟩ trivEvp emptyFS).st.afcSvcLive = false
    ∧ (mainRun ⟨⟨true, true, true, true⟩, "w",
        ⟨true, [], true, true, true, [], [], true⟩,
        ⟨true, true, true, true, []⟩, true, 0⟩ trivEvp emptyFS).st.ipcLive = false
    ∧ (mainRun ⟨⟨true, true, true, true⟩, "w",
        ⟨true, [], true, true, true, [], [], true⟩,
        ⟨true, true, true, true, []⟩, true, 0⟩ trivEvp emptyFS).st.optsLive = false
    ∧ (mainRun ⟨⟨true, true, true, true⟩, "w",
        ⟨true, [], true, true, true, [], [], true⟩,
        ⟨true, true, true, true, []⟩, true, 0⟩ trivEvp emptyFS).st.appsLive = false
    ∧ (mainRun ⟨⟨true, true, true, true⟩, "w",
        ⟨true, [], true, true, true, [], [], true⟩,
        ⟨true, true, true, true, []⟩, true, 0⟩ trivEvp emptyFS).st.doubleFree = false
    ∧ (mainRun ⟨⟨true, true, true, true⟩, "w",
        ⟨true, [], true, true, true, [], [], true⟩,
        ⟨true, true, true, true, []⟩, true, 0⟩ trivEvp emptyFS).st.ipSvcLive
        = (AppsEnv.ipSvcOk ⟨true, true, true, true, []⟩
           && AppsEnv.ipcOk ⟨true, true, true, true, []⟩)) :=
  ⟨by decide,
   close_releases_all_but_ip_descriptor
     ⟨⟨true, true, true, true⟩, "w",
      ⟨true, [], true, true, true, [], [], true⟩,
      ⟨true, true, true, true, []⟩, true, 0⟩ trivEvp emptyFS (by decide)⟩

/-- C3: if the session opens successfully and the message extractor fails
with a fetch, query-preparation, database-open or output-open error (it
returns −1), the run still executes the inventory extractor, the report
synthesizer and the session close — extractor failure never aborts the
run. -/
theorem pipeline_tolerates_sms_failure (e : Env) (ev : Evp) (fs0 : FS)
    (hconn : e.conn.ideviceOk ∧ e.conn.handshakeOk ∧ e.conn.afcSvcOk
      ∧ e.conn.afcClientOk)
    (hfail : ¬(e.sms.copyOk ∧ e.sms.dbOpenOk ∧ e.sms.outOpenOk
      ∧ e.sms.prepareOk)) :
    (∃ fs1, extract_sms_messages e.sms ev e.udid "sms_messages.csv" fs0
        = .ok (-1) fs1)
  ∧ (mainRun e ev fs0).trace.ranApps = true
  ∧ (mainRun e ev fs0).trace.ranReport = true
  ∧ (mainRun e ev fs0).trace.ranClose = true := by
  obtain ⟨fs1, hsms⟩ := sms_fail e.sms ev e.udid "sms_messages.csv" fs0 hfail
  have hEq := connect_ok e.conn hconn
  refine ⟨⟨fs1, hsms⟩, ?_⟩
  simp [mainRun, hEq, hsms]

/-- C3 witness: evaluated on a run whose fetch of the message store fails
while everything else succeeds. -/
theorem pipeline_tolerates_sms_failure_witness :
    ((ConnEnv.ideviceOk ⟨true, true, true, true⟩
        ∧ ConnEnv.handshakeOk ⟨true, true, true, true⟩
        ∧ ConnEnv.afcSvcOk ⟨true, true, true, true⟩
        ∧ ConnEnv.afcClientOk ⟨true, true, true, true⟩)
      ∧ ¬(SmsEnv.copyOk ⟨false, [], true, true, true, [], [], true⟩
        ∧ SmsEnv.dbOpenOk ⟨false, [], true, true, true, [], [], true⟩
        ∧ SmsEnv.outOpenOk ⟨false, [], true, true, true, [], [], true⟩
        ∧ SmsEnv.prepareOk ⟨false, [], true, true, true, [], [], true⟩))
  ∧ ((∃ fs1, extract_sms_messages ⟨false, [], true, true, true, [], [], true⟩
        trivEvp "u" "sms_messages.csv" emptyFS = .ok (-1) fs1)
    ∧ (mainRun ⟨⟨true, true, true, true⟩, "u",
        ⟨false, [], true, true, true, [], [], true⟩,
        ⟨true, true, true, true, []⟩, true, 0⟩ trivEvp emptyFS).trace.ranApps
        = true
    ∧ (mainRun ⟨⟨true, true, true, true⟩, "u",
        ⟨false, [], true, true, true, [], [], true⟩,
        ⟨true, true, true, true, []⟩, true, 0⟩ trivEvp emptyFS).trace.ranReport
        = true
    ∧ (mainRun ⟨⟨true, true, true, true⟩, "u",
        ⟨false, [], true, true, true, [], [], true⟩,
        ⟨true, true, true, true, []⟩, true, 0⟩ trivEvp emptyFS).trace.ranClose
        = true) :=
  ⟨⟨by decide, by decide⟩,
   pipeline_tolerates_sms_failure
     ⟨⟨true, true, true, true⟩, "u",
      ⟨false, [], true, true, true, [], [], true⟩,
      ⟨true, true, true, true, []⟩, true, 0⟩ trivEvp emptyFS
     (by decide) (by decide)⟩

/-! ## Claim C4: deletion of the plaintext versus seal success -/

/-- C4 counterexample: a run in which the cipher initialisation FAILS
(`badInitEvp`) but everything else succeeds.  Because `encrypt_file`
discards the return value of `EVP_EncryptInit_ex`, the extractor completes
with status 0 and `remove(output_file)` still runs: the plaintext file is
deleted even though the seal step failed — deletion is not tied to a
successful seal. -/
theorem plaintext_deleted_despite_failed_seal :
    poutCode (extract_sms_messages ⟨true, [7], true, true, true, [], [], true⟩
        badInitEvp "u" "sms_messages.csv" emptyFS) = some 0
  ∧ getFile (poutFS (extract_sms_messages
        ⟨true, [7], true, true, true, [], [], true⟩
        badInitEvp "u" "sms_messages.csv" emptyFS)) "sms_messages.csv"
      = none := by
  constructor
  · rfl
  · rfl

/-- C4 (amended): deletion of the plaintext is tied to the seal call
returning, not to the seal succeeding.  When the destination of the seal is
unwritable the process crashes inside `encrypt_file` and the plaintext file
survives; but when the seal call returns — in particular when a
cipher-initialisation failure was silently ignored — the plaintext is
deleted unconditionally. -/
theorem plaintext_deletion_follows_seal_return (se : SmsEnv) (ev : Evp)
    (u o : String) (fs : FS)
    (h : se.copyOk ∧ se.dbOpenOk ∧ se.outOpenOk ∧ se.prepareOk) :
    (se.encOutOk = false →
      poutCode (extract_sms_messages se ev u o fs) = none
      ∧ getFile (poutFS (extract_sms_messages se ev u o fs)) o
          = some (strBytes (smsCsv se.msgs se.handles)))
  ∧ (se.encOutOk = true →
      poutCode (extract_sms_messages se ev u o fs) = some 0
      ∧ getFile (poutFS (extract_sms_messages se ev u o fs)) o = none) := by
  obtain ⟨h1, h2, h3, h4⟩ := h
  constructor
  · intro h5
    simp only [extract_sms_messages, copy_file, h1, h2, h3, h4, h5, if_true,
      Bool.not_true, Bool.not_false, Bool.false_eq_true, if_false,
      encrypt_file]
    simp [poutCode, poutFS]
  · intro h5
    rw [sms_success se ev u o fs ⟨h1, h2, h3, h4, h5⟩]
    simp [poutCode, poutFS]

/-- C4 witness: the amended deletion statement, evaluated (first leg) on a
run whose sealed-output `fopen` fails and (through the same theorem) on a
run where it succeeds. -/
theorem plaintext_deletion_follows_seal_return_witness :
    (SmsEnv.copyOk ⟨true, [3], true, true, true, [], [], false⟩
      ∧ SmsEnv.dbOpenOk ⟨true, [3], true, true, true, [], [], false⟩
      ∧ SmsEnv.outOpenOk ⟨true, [3], true, true, true, [], [], false⟩
      ∧ SmsEnv.prepareOk ⟨true, [3], true, true, true, [], [], false⟩)
  ∧ ((SmsEnv.encOutOk ⟨true, [3], true, true, true, [], [], false⟩ = false →
        poutCode (extract_sms_messages ⟨true, [3], true, true, true, [], [], false⟩
            trivEvp "u" "sms_messages.csv" emptyFS) = none
        ∧ getFile (poutFS (extract_sms_messages
            ⟨true, [3], true, true, true, [], [], false⟩
            trivEvp "u" "sms_messages.csv" emptyFS)) "sms_messages.csv"
          = some (strBytes (smsCsv
              (SmsEnv.msgs ⟨true, [3], true, true, true, [], [], false⟩)
              (SmsEnv.handles ⟨true, [3], true, true, true, [], [], false⟩))))
    ∧ (SmsEnv.encOutOk ⟨true, [3], true, true, true, [], [], false⟩ = true →
        poutCode (extract_sms_messages ⟨true, [3], true, true, true, [], [], false⟩
            trivEvp "u" "sms_messages.csv" emptyFS) = some 0
        ∧ getFile (poutFS (extract_sms_messages
            ⟨true, [3], true, true, true, [], [], false⟩
            trivEvp "u" "sms_messages.csv" emptyFS)) "sms_messages.csv"
          = none)) :=
  ⟨by decide,
   plaintext_deletion_follows_seal_return
     ⟨true, [3], true, true, true, [], [], false⟩ trivEvp "u"
     "sms_messages.csv" emptyFS (by decide)⟩

/-! ## Claim C5: report honesty -/

/-- The report text always mentions the sealed message artifact by name,
whatever the device identifier and clock value are. -/
theorem report_mentions_sms_artifact (u : String) (n : Nat) :
    "sms_messages.csv.enc".data <:+: (reportContent u n).data := by
  simp only [reportContent, String.data_append]
  refine List.IsInfix.trans ?_ (List.prefix_append _ _).isInfix
  exact List.IsInfix.trans (by decide) (List.suffix_append _ _).isInfix

/-- C5 counterexample: a run whose message-store fetch fails (so no
`sms_messages.csv.enc` is ever produced) still generates a report whose
text names `sms_messages.csv.enc` — the manifest claims an artifact that
does not exist. -/
theorem report_claims_missing_artifact :
    getFile (mainRun ⟨⟨true, true, true, true⟩, "u",
        ⟨false, [], true, true, true, [], [], true⟩,
        ⟨true, true, true, true, []⟩, true, 0⟩ trivEvp emptyFS).fs
      "forensic_report.txt" = some (strBytes (reportContent "u" 0))
  ∧ "sms_messages.csv.enc".data <:+: (reportContent "u" 0).data
  ∧ getFile (mainRun ⟨⟨true, true, true, true⟩, "u",
        ⟨false, [], true, true, true, [], [], true⟩,
        ⟨true, true, true, true, []⟩, true, 0⟩ trivEvp emptyFS).fs
      "sms_messages.csv.enc" = none := by
  refine ⟨rfl, report_mentions_sms_artifact "u" 0, rfl⟩

/-- C5 (amended): whenever the report stage runs and its output file opens,
the generated report has the fixed hard-coded content determined only by
the device identifier and the clock — it lists both artifact descriptions
(in particular `sms_messages.csv.enc`) regardless of which extractors
succeeded or produced output. -/
theorem report_content_is_fixed (e : Env) (ev : Evp) (fs0 : FS)
    (hran : (mainRun e ev fs0).trace.ranReport = true)
    (hopen : e.reportOk = true) :
    getFile (mainRun e ev fs0).fs "forensic_report.txt"
      = some (strBytes (reportContent e.udid e.now))
  ∧ "sms_messages.csv.enc".data <:+: (reportContent e.udid e.now).data := by
  refine ⟨?_, report_mentions_sms_artifact e.udid e.now⟩
  by_cases hc : (connect_to_device e.conn initSt).1 = 0
  · have hEq := connect_eq_of_ok e.conn hc
    cases hm : extract_sms_messages e.sms ev e.udid "sms_messages.csv" fs0 with
    | crash fs1 =>
      exfalso
      simp [mainRun, hEq, hm] at hran
    | ok v fs1 =>
      simp only [mainRun, hEq, hm, bne_self_eq_false, Bool.false_eq_true,
        if_false]
      simp [generate_report, hopen]
  · exfalso
    have : (connect_to_device e.conn initSt).1 != 0 := by simpa using hc
    simp [mainRun, this] at hran

/-- C5 witness: the fixed-report statement evaluated on a run in which both
extractors fail but the report file opens. -/
theorem report_content_is_fixed_witness :
    ((mainRun ⟨⟨true, true, true, true⟩, "v",
        ⟨false, [], true, true, true, [], [], true⟩,
        ⟨false, true, true, true, []⟩, true, 5⟩ trivEvp emptyFS).trace.ranReport
       = true
     ∧ Env.reportOk ⟨⟨true, true, true, true⟩, "v",
        ⟨false, [], true, true, true, [], [], true⟩,
        ⟨false, true, true, true, []⟩, true, 5⟩ = true)
  ∧ (getFile (mainRun ⟨⟨true, true, true, true⟩, "v",
        ⟨false, [], true, true, true, [], [], true⟩,
        ⟨false, true, true, true, []⟩, true, 5⟩ trivEvp emptyFS).fs
      "forensic_report.txt"
      = some (strBytes (reportContent
          (Env.udid ⟨⟨true, true, true, true⟩, "v",
            ⟨false, [], true, true, true, [], [], true⟩,
            ⟨false, true, true, true, []⟩, true, 5⟩)
          (Env.now ⟨⟨true, true, true, true⟩, "v",
            ⟨false, [], true, true, true, [], [], true⟩,
            ⟨false, true, true, true, []⟩, true, 5⟩)))
    ∧ "sms_messages.csv.enc".data <:+:
        (reportContent
          (Env.udid ⟨⟨true, true, true, true⟩, "v",
            ⟨false, [], true, true, true, [], [], true⟩,
            ⟨false, true, true, true, []⟩, true, 5⟩)
          (Env.now ⟨⟨true, true, true, true⟩, "v",
            ⟨false, [], true, true, true, [], [], true⟩,
            ⟨false, true, true, true, []⟩, true, 5⟩)).data) :=
  ⟨⟨rfl, rfl⟩,
   report_content_is_fixed
     ⟨⟨true, true, true, true⟩, "v",
      ⟨false, [], true, true, true, [], [], true⟩,
      ⟨false, true, true, true, []⟩, true, 5⟩ trivEvp emptyFS rfl rfl⟩

/-! ## Claim C6: shape of the extracted message rows -/

/-- C6 counterexample: a message whose sender does not resolve (no matching
`handle` row).  `sqlite3_column_text` returns a NULL pointer for the NULL
join column and `fprintf`'s `%s` renders it as the literal text `(null)`,
so the emitted CSV line carries `(null)` in the sender field, not the empty
string the claim requires. -/
theorem null_sender_not_rendered_empty :
    smsCsv [⟨100, 5, some "hi"⟩] []
      = "Date,Phone Number,Message\n100,(null),hi\n"
  ∧ "Date,Phone Number,Message\n100,(null),hi\n"
      ≠ "Date,Phone Number,Message\n100,,hi\n" := by
  constructor
  · rfl
  · decide

/-- C6 (amended): for every copied message store whose `handle` ROWIDs are
unique, the query yields exactly one row per message, ordered by descending
message timestamp; a message with no resolvable sender still appears, its
sender being the LEFT-JOIN resolution (`none` when unmatched); and every
NULL field (sender or body) is rendered in the CSV as the literal text
`(null)` rather than as an empty string. -/
theorem sms_rows_shape (msgs : List Msg) (handles : List Handle)
    (hnd : (handles.map Handle.rowid).Nodup) :
    (smsQuery msgs handles).length = msgs.length
  ∧ ((smsQuery msgs handles).map SmsRow.date).Sorted (fun a b => b ≤ a)
  ∧ (∀ m ∈ msgs,
      (⟨m.date, senderOf handles m, m.text⟩ : SmsRow) ∈ smsQuery msgs handles)
  ∧ (∀ r ∈ smsQuery msgs handles,
      csvLine r = dtFormat r.date ++ "," ++ r.phone.getD "(null)" ++ ","
        ++ r.body.getD "(null)" ++ "\n") := by
  refine ⟨?_, ?_, ?_, fun r _ => rfl⟩
  · rw [smsQuery_eq_map msgs handles hnd, List.length_map,
      List.length_insertionSort]
  · rw [smsQuery_eq_map msgs handles hnd, List.map_map]
    have hs := List.sorted_insertionSort msgGE msgs
    unfold List.Sorted at hs ⊢
    rw [List.pairwise_map]
    exact hs.imp (fun h => h)
  · intro m hm
    rw [smsQuery_eq_map msgs handles hnd]
    exact List.mem_map_of_mem _
      ((List.perm_insertionSort msgGE msgs).mem_iff.mpr hm)

/-- C6 witness: the row-shape statement evaluated on the spec's example
timestamps `[100, 50, 200]` (with a handle table containing one matching
row), whose extracted order is `200, 100, 50`. -/
theorem sms_rows_shape_witness :
    (([⟨1, some "p"⟩] : List Handle).map Handle.rowid).Nodup
  ∧ ((smsQuery [⟨100, 1, some "a"⟩, ⟨50, 2, none⟩, ⟨200, 7, some "c"⟩]
        [⟨1, some "p"⟩]).length
      = ([⟨100, 1, some "a"⟩, ⟨50, 2, none⟩, ⟨200, 7, some "c"⟩] : List Msg).length
    ∧ ((smsQuery [⟨100, 1, some "a"⟩, ⟨50, 2, none⟩, ⟨200, 7, some "c"⟩]
          [⟨1, some "p"⟩]).map SmsRow.date).Sorted (fun a b => b ≤ a)
    ∧ (∀ m ∈ ([⟨100, 1, some "a"⟩, ⟨50, 2, none⟩, ⟨200, 7, some "c"⟩] : List Msg),
        (⟨m.date, senderOf [⟨1, some "p"⟩] m, m.text⟩ : SmsRow)
          ∈ smsQuery [⟨100, 1, some "a"⟩, ⟨50, 2, none⟩, ⟨200, 7, some "c"⟩]
              [⟨1, some "p"⟩])
    ∧ (∀ r ∈ smsQuery [⟨100, 1, some "a"⟩, ⟨50, 2, none⟩, ⟨200, 7, some "c"⟩]
          [⟨1, some "p"⟩],
        csvLine r = dtFormat r.date ++ "," ++ r.phone.getD "(null)" ++ ","
          ++ r.body.getD "(null)" ++ "\n")) :=
  ⟨by decide,
   sms_rows_shape [⟨100, 1, some "a"⟩, ⟨50, 2, none⟩, ⟨200, 7, some "c"⟩]
     [⟨1, some "p"⟩] (by decide)⟩

/-- The spec's ordering example, evaluated: timestamps `[100, 50, 200]`
come out in order `200, 100, 50`. -/
example :
    (smsQuery [⟨100, 1, some "a"⟩, ⟨50, 2, none⟩, ⟨200, 7, some "c"⟩]
      [⟨1, some "p"⟩]).map SmsRow.date = [200, 100, 50] := by
  decide

/-! ## Claim C7: the inventory completeness filter -/

/-- C7: the inventory extractor emits one row per entry exactly when all
three fields (display name, bundle identifier, version) are present: the
emitted rows are precisely the complete entries, rendered in their original
order, with no placeholder for dropped entries.  (Under the filter every
kept entry's fields are `some`, so the `getD` defaults are never used.) -/
theorem inventory_rows_are_complete_entries (apps : List AppEntry) :
    appRows apps = (apps.filter appComplete).map
      (fun a => appLine (a.name.getD "") (a.bundle.getD "") (a.version.getD "")) := by
  induction apps with
  | nil => rfl
  | cons a t ih =>
    rcases a with ⟨n, b, v⟩
    rcases n with _ | n <;> rcases b with _ | b <;> rcases v with _ | v <;>
      simp_all [appRows, appComplete, List.filterMap_cons, List.filter_cons]

/-- The spec's inventory scenario, evaluated: entries A (complete),
B (missing version), C (complete) produce exactly the rows for A and C, in
order. -/
example :
    appRows [⟨some "A", some "a.b", some "1"⟩,
             ⟨some "B", some "b.c", none⟩,
             ⟨some "C", some "c.d", some "2"⟩]
      = [appLine "A" "a.b" "1", appLine "C" "c.d" "2"] := by
  decide

/-! ## Claim C9: the unencrypted message-store copy persists -/

/-- Filesystem effect of the inventory extractor: it writes
`installed_apps.csv` when it reaches the output stage, and touches nothing
else. -/
theorem apps_fs (ae : AppsEnv) (s : St) (fs : FS) :
    (extract_installed_apps ae s fs).2.2 =
      if ae.ipSvcOk && ae.ipcOk && ae.browseOk && ae.outOk then
        setFile fs "installed_apps.csv" (strBytes (appsCsv ae.apps))
      else fs := by
  rcases ae with ⟨sv, ipc, br, out, apps⟩
  cases sv <;> cases ipc <;> cases br <;> cases out <;>
    simp [extract_installed_apps]

/-- The report synthesizer leaves every file other than its own output
untouched. -/
theorem getFile_generate_report_ne (b : Bool) (u : String) (n : Nat)
    (fs : FS) (o m : String) (h : m ≠ o) :
    getFile (generate_report b u n fs o) m = getFile fs m := by
  cases b <;> simp [generate_report, getFile_setFile_ne _ _ h]

/-- C9: after a run in which the session opened and the message extractor
completed successfully (the plaintext CSV was sealed and deleted), the raw
fetched copy of the device's message store, the local file
`<device-identifier>_sms.db`, still exists on disk with its full
unencrypted contents — no later stage of the pipeline ever deletes it. -/
theorem sms_db_copy_persists (e : Env) (ev : Evp) (fs0 : FS)
    (hconn : e.conn.ideviceOk ∧ e.conn.handshakeOk ∧ e.conn.afcSvcOk
      ∧ e.conn.afcClientOk)
    (hs : e.sms.copyOk ∧ e.sms.dbOpenOk ∧ e.sms.outOpenOk ∧ e.sms.prepareOk
      ∧ e.sms.encOutOk) :
    (mainRun e ev fs0).exitCode = some 0
  ∧ getFile (mainRun e ev fs0).fs (e.udid ++ "_sms.db")
      = some e.sms.smsDbBytes := by
  have hEq := connect_ok e.conn hconn
  have hsms := sms_success e.sms ev e.udid "sms_messages.csv" fs0 hs
  have hlast : ("_sms.db" : String).data.getLast? = some 'b' := by decide
  have hne1 : e.udid ++ "_sms.db" ≠ "sms_messages.csv" :=
    append_ne_of_last_ne e.udid "_sms.db" "sms_messages.csv" 'b' 'v' hlast
      (by decide) (by decide)
  have henc : ("sms_messages.csv" : String) ++ ".enc" = "sms_messages.csv.enc" := by
    decide
  have hne2 : e.udid ++ "_sms.db" ≠ "sms_messages.csv" ++ ".enc" := by
    rw [henc]
    exact append_ne_of_last_ne e.udid "_sms.db" "sms_messages.csv.enc" 'b' 'c'
      hlast (by decide) (by decide)
  have hne3 : e.udid ++ "_sms.db" ≠ "installed_apps.csv" :=
    append_ne_of_last_ne e.udid "_sms.db" "installed_apps.csv" 'b' 'v' hlast
      (by decide) (by decide)
  have hne4 : e.udid ++ "_sms.db" ≠ "forensic_report.txt" :=
    append_ne_of_last_ne e.udid "_sms.db" "forensic_report.txt" 'b' 't' hlast
      (by decide) (by decide)
  constructor
  · simp [mainRun, hEq, hsms]
  · simp only [mainRun, hEq, hsms, bne_self_eq_false, Bool.false_eq_true,
      if_false]
    rw [getFile_generate_report_ne _ _ _ _ _ _ hne4, apps_fs]
    by_cases happs : e.apps.ipSvcOk && e.apps.ipcOk && e.apps.browseOk
        && e.apps.outOk
    · rw [if_pos happs, getFile_setFile_ne _ _ hne3,
        getFile_removeFile_ne _ hne1, getFile_setFile_ne _ _ hne2,
        getFile_setFile_ne _ _ hne2, getFile_setFile_ne _ _ hne1,
        getFile_setFile_ne _ _ hne1, getFile_setFile_self]
    · rw [if_neg happs, getFile_removeFile_ne _ hne1,
        getFile_setFile_ne _ _ hne2, getFile_setFile_ne _ _ hne2,
        getFile_setFile_ne _ _ hne1, getFile_setFile_ne _ _ hne1,
        getFile_setFile_self]

/-- C9 witness: the persistence statement evaluated on the all-success run
with device identifier `dev` and store contents `[9, 9]`. -/
theorem sms_db_copy_persists_witness :
    ((ConnEnv.ideviceOk ⟨true, true, true, true⟩
        ∧ ConnEnv.handshakeOk ⟨true, true, true, true⟩
        ∧ ConnEnv.afcSvcOk ⟨true, true, true, true⟩
        ∧ ConnEnv.afcClientOk ⟨true, true, true, true⟩)
      ∧ (SmsEnv.copyOk ⟨true, [9, 9], true, true, true, [], [], true⟩
        ∧ SmsEnv.dbOpenOk ⟨true, [9, 9], true, true, true, [], [], true⟩
        ∧ SmsEnv.outOpenOk ⟨true, [9, 9], true, true, true, [], [], true⟩
        ∧ SmsEnv.prepareOk ⟨true, [9, 9], true, true, true, [], [], true⟩
        ∧ SmsEnv.encOutOk ⟨true, [9, 9], true, true, true, [], [], true⟩))
  ∧ ((mainRun ⟨⟨true, true, true, true⟩, "dev",
        ⟨true, [9, 9], true, true, true, [], [], true⟩,
        ⟨true, true, true, true, []⟩, true, 0⟩ trivEvp emptyFS).exitCode
      = some 0
    ∧ getFile (mainRun ⟨⟨true, true, true, true⟩, "dev",
        ⟨true, [9, 9], true, true, true, [], [], true⟩,
        ⟨true, true, true, true, []⟩, true, 0⟩ trivEvp emptyFS).fs
        ("dev" ++ "_sms.db")
      = some (SmsEnv.smsDbBytes ⟨true, [9, 9], true, true, true, [], [], true⟩)) :=
  ⟨⟨by decide, by decide⟩,
   sms_db_copy_persists
     ⟨⟨true, true, true, true⟩, "dev",
      ⟨true, [9, 9], true, true, true, [], [], true⟩,
      ⟨true, true, true, true, []⟩, true, 0⟩ trivEvp emptyFS
     (by decide) (by decide)⟩

/-! ## Claim C10: determinism of the seal -/

/-- C10: the seal is deterministic.  The cipher context is initialised from
the fixed hard-coded key and an absent (all-zero) IV, with no per-run
randomness, so for any two runs — over different filesystems, input names
and output names — whose input files hold identical bytes, both seals
succeed and write byte-for-byte identical ciphertexts, namely
`encBytes ev bs`. -/
theorem encrypt_file_deterministic (ev : Evp) (fsa fsb : FS)
    (ia ib oa ob : String) (bs : Bytes)
    (ha : getFile fsa ia = some bs) (hb : getFile fsb ib = some bs)
    (na : ia ≠ oa) (nb : ib ≠ ob) :
    poutCode (encrypt_file ev true fsa ia oa) = some ()
  ∧ poutCode (encrypt_file ev true fsb ib ob) = some ()
  ∧ getFile (poutFS (encrypt_file ev true fsa ia oa)) oa
      = some (encBytes ev bs)
  ∧ getFile (poutFS (encrypt_file ev true fsb ib ob)) ob
      = some (encBytes ev bs)
  ∧ getFile (poutFS (encrypt_file ev true fsa ia oa)) oa
      = getFile (poutFS (encrypt_file ev true fsb ib ob)) ob := by
  have hra : encrypt_file ev true fsa ia oa
      = .ok () (setFile (setFile fsa oa []) oa (encBytes ev bs)) := by
    simp [encrypt_file, ha, getFile_setFile_ne _ _ na]
  have hrb : encrypt_file ev true fsb ib ob
      = .ok () (setFile (setFile fsb ob []) ob (encBytes ev bs)) := by
    simp [encrypt_file, hb, getFile_setFile_ne _ _ nb]
  rw [hra, hrb]
  simp [poutCode, poutFS]

/-- C10 witness: two seals of the same two-byte plaintext, living in
different directories under different names, both produce the ciphertext
`encBytes trivEvp [1, 2]`. -/
theorem encrypt_file_deterministic_witness :
    (getFile (setFile emptyFS "a.csv" [1, 2]) "a.csv" = some [1, 2]
      ∧ getFile (setFile (setFile emptyFS "x" [9]) "b.csv" [1, 2]) "b.csv"
          = some [1, 2]
      ∧ ("a.csv" : String) ≠ "a.enc" ∧ ("b.csv" : String) ≠ "b.enc")
  ∧ (poutCode (encrypt_file trivEvp true (setFile emptyFS "a.csv" [1, 2])
        "a.csv" "a.enc") = some ()
    ∧ poutCode (encrypt_file trivEvp true
        (setFile (setFile emptyFS "x" [9]) "b.csv" [1, 2]) "b.csv" "b.enc")
        = some ()
    ∧ getFile (poutFS (encrypt_file trivEvp true
        (setFile emptyFS "a.csv" [1, 2]) "a.csv" "a.enc")) "a.enc"
        = some (encBytes trivEvp [1, 2])
    ∧ getFile (poutFS (encrypt_file trivEvp true
        (setFile (setFile emptyFS "x" [9]) "b.csv" [1, 2]) "b.csv" "b.enc"))
        "b.enc" = some (encBytes trivEvp [1, 2])
    ∧ getFile (poutFS (encrypt_file trivEvp true
        (setFile emptyFS "a.csv" [1, 2]) "a.csv" "a.enc")) "a.enc"
        = getFile (poutFS (encrypt_file trivEvp true
            (setFile (setFile emptyFS "x" [9]) "b.csv" [1, 2]) "b.csv"
            "b.enc")) "b.enc") :=
  ⟨⟨rfl, rfl, by decide, by decide⟩,
   encrypt_file_deterministic trivEvp (setFile emptyFS "a.csv" [1, 2])
     (setFile (setFile emptyFS "x" [9]) "b.csv" [1, 2]) "a.csv" "b.csv"
     "a.enc" "b.enc" [1, 2] rfl rfl (by decide) (by decide)⟩
